import Mathlib

/-
Shallow embedding of the streaming pretty formatter (src/index.ts of
cucumber-js-pretty-formatter).

The embedding follows the source file block by block:

* `ThemeItem` and `themeItemIndentations` mirror the element kinds and the
  static indentation table (index.ts lines 54-73).
* `Status` and `marks` mirror the status enumeration of the external
  messages collaborator together with the `marks` table (lines 23-31);
  `figures.cross` and `figures.tick` are the Unicode characters below.
* The message records (`Feature`, `Rule`, `Scenario`, `Pickle`, ...) carry
  exactly the fields the source reads; optional fields are `Option`s, and
  JavaScript truthiness of strings and numbers is made explicit through
  `jsOrStr` and `jsOrInt` (an empty string and the number 0 are falsy).
* The lookup tables produced by the external document-resolution
  collaborator (`getGherkinExampleRuleMap`, `getGherkinScenarioMap`,
  `getGherkinStepMap`) are modelled as association-list fields of
  `GherkinDocument`; `getPickleStepMap` is derived from the pickle's steps,
  matching the helper's documented behaviour (id -> step).
* Output is observed as a list of `Out` items: `Out.item` records one call
  of `logItem`/`styleItem` (effective indentation, element kind, text
  fragments before styling), `Out.loc` records a location reference
  (the external location formatter applied to uri and line), `Out.desc`
  a feature description (the external dedent applied to the raw text),
  `Out.table` a data table (the external table layouter applied to the
  styled cell values), `Out.sp` a literal space write and `Out.nl` a
  newline write.
* JavaScript exceptions are explicit: `Err.pickleAstMissing` is the
  `throw new Error('Pickle AST nodes missing')` of lines 164/305, and
  `Err.typeError f` is the TypeError raised by reading property `f` of
  `undefined`.  A handler returns the state and output produced up to the
  point of the throw, since field mutations and writes before a throw
  persist.
-/

namespace CucumberPretty

/-- Element kinds of the theme, index.ts `ThemeItem` (imported from theme.ts). -/
inductive ThemeItem
  | DataTable
  | DataTableBorder
  | DataTableContent
  | DocStringContent
  | DocStringDelimiter
  | FeatureDescription
  | FeatureKeyword
  | FeatureName
  | Location
  | RuleKeyword
  | RuleName
  | ScenarioKeyword
  | ScenarioName
  | StepKeyword
  | StepMessage
  | StepStatus
  | StepText
  | Tag
deriving DecidableEq

/-- Static indentation table, index.ts lines 54-73. -/
def themeItemIndentations : ThemeItem → Nat
  | ThemeItem.DataTable => 6
  | ThemeItem.DataTableBorder => 0
  | ThemeItem.DataTableContent => 0
  | ThemeItem.DocStringContent => 6
  | ThemeItem.DocStringDelimiter => 6
  | ThemeItem.FeatureDescription => 2
  | ThemeItem.FeatureKeyword => 0
  | ThemeItem.FeatureName => 0
  | ThemeItem.Location => 0
  | ThemeItem.RuleKeyword => 2
  | ThemeItem.RuleName => 0
  | ThemeItem.ScenarioKeyword => 2
  | ThemeItem.ScenarioName => 0
  | ThemeItem.StepKeyword => 4
  | ThemeItem.StepMessage => 6
  | ThemeItem.StepStatus => 4
  | ThemeItem.StepText => 0
  | ThemeItem.Tag => 0

/-- Step result statuses of the external messages collaborator
(string-valued enumeration, every member truthy). -/
inductive Status
  | AMBIGUOUS
  | FAILED
  | PASSED
  | PENDING
  | SKIPPED
  | UNDEFINED
  | UNKNOWN
deriving DecidableEq

/-- `marks` table, index.ts lines 23-31; `cross` and `tick` from figures. -/
def marks : Status → String
  | Status.AMBIGUOUS => "✖"
  | Status.FAILED => "✖"
  | Status.PASSED => "✔"
  | Status.PENDING => "?"
  | Status.SKIPPED => "-"
  | Status.UNDEFINED => "?"
  | Status.UNKNOWN => "?"

/-- Enumeration key of a status (`Status[status]` of line 237). -/
def statusKey : Status → String
  | Status.AMBIGUOUS => "AMBIGUOUS"
  | Status.FAILED => "FAILED"
  | Status.PASSED => "PASSED"
  | Status.PENDING => "PENDING"
  | Status.SKIPPED => "SKIPPED"
  | Status.UNDEFINED => "UNDEFINED"
  | Status.UNKNOWN => "UNKNOWN"

/-- JavaScript `x || d` for an optional string: `undefined` and `''` are falsy. -/
def jsOrStr : Option String → String → String
  | some s, d => if s = "" then d else s
  | none, d => d

/-- JavaScript `x || d` for an optional number: `undefined` and `0` are falsy. -/
def jsOrInt : Option Int → Int → Int
  | some x, d => if x = 0 then d else x
  | none, d => d

structure Tag where
  name : Option String
deriving DecidableEq

structure Location where
  line : Option Int
deriving DecidableEq

structure Feature where
  keyword : Option String
  name : Option String
  description : Option String
  tags : Option (List Tag)
  location : Option Location
deriving DecidableEq

structure Rule where
  id : String
  keyword : String
  name : Option String
deriving DecidableEq

structure Scenario where
  keyword : Option String
  location : Option Location
deriving DecidableEq

structure DocString where
  delimiter : String
  content : String
deriving DecidableEq

structure TableCell where
  value : Option String
deriving DecidableEq

structure TableRow where
  cells : Option (List TableCell)
deriving DecidableEq

structure DataTable where
  rows : List TableRow
deriving DecidableEq

structure GherkinStep where
  keyword : String
  docString : Option DocString
  dataTable : Option DataTable
deriving DecidableEq

structure PickleStep where
  id : String
  text : String
  astNodeIds : List String
deriving DecidableEq

structure Pickle where
  name : Option String
  tags : Option (List Tag)
  astNodeIds : Option (List String)
  steps : List PickleStep
deriving DecidableEq

/-- A parsed document together with the lookup tables the external
document-resolution collaborator derives from it
(`getGherkinExampleRuleMap`, `getGherkinScenarioMap`, `getGherkinStepMap`). -/
structure GherkinDocument where
  uri : Option String
  feature : Option Feature
  exampleRuleMap : List (String × Rule)
  scenarioMap : List (String × Scenario)
  stepMap : List (String × GherkinStep)
deriving DecidableEq

structure TestStep where
  id : String
  pickleStepId : Option String
deriving DecidableEq

structure TestCase where
  testSteps : Option (List TestStep)
deriving DecidableEq

/-- The bundle returned by `eventDataCollector.getTestCaseAttempt`. -/
structure TestCaseAttempt where
  gherkinDocument : GherkinDocument
  pickle : Pickle
  testCase : TestCase
deriving DecidableEq

structure TestCaseStarted where
  id : Option String
deriving DecidableEq

structure TestStepStarted where
  testCaseStartedId : Option String
  testStepId : String
deriving DecidableEq

structure TestStepResult where
  status : Option Status
  message : Option String
deriving DecidableEq

structure TestStepFinished where
  testStepResult : Option TestStepResult
deriving DecidableEq

/-- One envelope of the event stream; each recognized kind is an optional
field, checked in the order of `parseEnvelope` (lines 139-148). -/
structure Envelope where
  testCaseStarted : Option TestCaseStarted
  testStepStarted : Option TestStepStarted
  testStepFinished : Option TestStepFinished
  testCaseFinished : Option Unit
deriving DecidableEq

/-- JavaScript property read `m[k]` on a lookup table, where the key may be
`undefined` (a missing key, and an `undefined` key, give `undefined`). -/
def jsLookup {α : Type} (m : List (String × α)) : Option String → Option α
  | some k => m.lookup k
  | none => none

/-- The formatter's cross-event mutable fields: `uri`, `lastRuleId`,
`indentOffset` (index.ts lines 76-78). -/
structure FormatterState where
  uri : Option String
  lastRuleId : Option String
  indentOffset : Nat
deriving DecidableEq

/-- Initial state: no document seen, no rule seen, offset 0. -/
def initState : FormatterState := { uri := none, lastRuleId := none, indentOffset := 0 }

/-- One observable unit of output (see the header comment). -/
inductive Out
  | item (indent : Nat) (ti : ThemeItem) (text : List String)
  | loc (indent : Nat) (uri : String) (line : Int)
  | desc (indent : Nat) (raw : String)
  | table (indent : Nat) (cells : List (List String))
  | sp
  | nl
deriving DecidableEq

/-- JavaScript errors the handlers can raise. -/
inductive Err
  | pickleAstMissing
  | typeError (field : String)
deriving DecidableEq

/-- `styleItem`'s indentation adjustment (lines 95-99): a positive base
indent is shifted by a positive current offset. -/
def effIndent (offset indent : Nat) : Nat :=
  if 0 < indent ∧ 0 < offset then indent + offset else indent

/-- `renderLocation` (lines 318-324): one Location item holding the
tracked uri (`this.uri || ''`) and the line, formatted externally. -/
def renderLocation (s : FormatterState) (line : Int) : List Out :=
  [Out.loc (effIndent s.indentOffset (themeItemIndentations ThemeItem.Location))
    (s.uri.getD "") line]

/-- The truthy tag names collected by the `reduce` of lines 254-257. -/
def tagNames (tags : List Tag) : List String :=
  tags.foldl
    (fun acc t =>
      match t.name with
      | some nm => if nm = "" then acc else acc ++ [nm]
      | none => acc)
    []

/-- The `tagStrings.forEach` loop of lines 261-264: each remaining tag is a
space write followed by a Tag item at the table indent (0). -/
def renderTagsRest (s : FormatterState) : List String → List Out
  | [] => []
  | t :: ts =>
      Out.sp ::
        Out.item (effIndent s.indentOffset (themeItemIndentations ThemeItem.Tag))
          ThemeItem.Tag [t] ::
        renderTagsRest s ts

/-- `renderTags` (lines 253-267): nothing for an empty truthy-tag list,
otherwise the first tag at the given indent, the rest via the loop, and a
newline. -/
def renderTags (s : FormatterState) (indent : Nat) (tags : List Tag) : List Out :=
  match tagNames tags with
  | [] => []
  | first :: rest =>
      Out.item (effIndent s.indentOffset indent) ThemeItem.Tag [first] ::
        (renderTagsRest s rest ++ [Out.nl])

/-- `renderFeatureHead` (lines 269-289). -/
def renderFeatureHead (s : FormatterState) (feature : Feature) : List Out :=
  renderTags s 0 (feature.tags.getD [])
    ++ [Out.item (effIndent s.indentOffset (themeItemIndentations ThemeItem.FeatureKeyword))
          ThemeItem.FeatureKeyword [jsOrStr feature.keyword "[feature]", ":"],
        Out.sp,
        Out.item (effIndent s.indentOffset (themeItemIndentations ThemeItem.FeatureName))
          ThemeItem.FeatureName [jsOrStr feature.name ""]]
    ++ (match feature.location with
        | some l => Out.sp :: renderLocation s (jsOrInt l.line (-1))
        | none => [])
    ++ [Out.nl]
    ++ (match feature.description with
        | some d =>
            if d = "" then []
            else
              [Out.nl,
               Out.desc (effIndent s.indentOffset (themeItemIndentations ThemeItem.FeatureDescription)) d,
               Out.nl]
        | none => [])
    ++ [Out.nl]

/-- `renderRule` (lines 291-297). -/
def renderRule (s : FormatterState) (rule : Rule) : List Out :=
  [Out.item (effIndent s.indentOffset (themeItemIndentations ThemeItem.RuleKeyword))
     ThemeItem.RuleKeyword [rule.keyword, ":"],
   Out.sp,
   Out.item (effIndent s.indentOffset (themeItemIndentations ThemeItem.RuleName))
     ThemeItem.RuleName [jsOrStr rule.name ""],
   Out.nl, Out.nl]

/-- `renderScenarioHead` (lines 299-316).  The tags are rendered first; a
missing `astNodeIds` field then throws (line 305); a scenario-map miss on
the first AST node id makes `scenario` `undefined`, and reading
`scenario.keyword` at line 308 raises a TypeError.  When the scenario
resolves, the guard of line 311 re-reads the same map entry (necessarily
some) and appends the location reference. -/
def renderScenarioHead (s : FormatterState) (doc : GherkinDocument) (pickle : Pickle) :
    List Out × Option Err :=
  let tagsOut := renderTags s 2 (pickle.tags.getD [])
  match pickle.astNodeIds with
  | none => (tagsOut, some Err.pickleAstMissing)
  | some ids =>
      match jsLookup doc.scenarioMap ids.head? with
      | none => (tagsOut, some (Err.typeError "keyword"))
      | some scenario =>
          (tagsOut
            ++ [Out.item (effIndent s.indentOffset (themeItemIndentations ThemeItem.ScenarioKeyword))
                  ThemeItem.ScenarioKeyword [jsOrStr scenario.keyword "???", ":"],
                Out.sp,
                Out.item (effIndent s.indentOffset (themeItemIndentations ThemeItem.ScenarioName))
                  ThemeItem.ScenarioName [jsOrStr pickle.name ""]]
            ++ (if (jsLookup doc.scenarioMap ids.head?).isSome then
                  Out.sp :: renderLocation s (jsOrInt (scenario.location.bind Location.line) (-1))
                else [])
            ++ [Out.nl],
           none)

/-- The document-transition block of `onTestCaseStarted`, lines 156-161:
when the tracked uri differs from the document's AND a feature resolves,
reset the offset, track the new uri (`uri || ''`), clear the rule id and
render the feature head; otherwise do nothing. -/
def featureReset (s : FormatterState) (doc : GherkinDocument) : FormatterState × List Out :=
  match doc.feature with
  | some feature =>
      if s.uri ≠ doc.uri then
        let s1 : FormatterState :=
          { uri := some (doc.uri.getD ""), lastRuleId := none, indentOffset := 0 }
        (s1, renderFeatureHead s1 feature)
      else (s, [])
  | none => (s, [])

/-- The rule block of `onTestCaseStarted`, lines 165-171: resolve the rule
by the first AST node id; when found with a new id, render its head at
offset 0, remember the id and raise the offset to 2. -/
def ruleStep (s : FormatterState) (doc : GherkinDocument) (ids : List String) :
    FormatterState × List Out :=
  match jsLookup doc.exampleRuleMap ids.head? with
  | some rule =>
      if s.lastRuleId ≠ some rule.id then
        ({ uri := s.uri, lastRuleId := some rule.id, indentOffset := 2 },
         renderRule { s with indentOffset := 0 } rule)
      else (s, [])
  | none => (s, [])

/-- `onTestCaseStarted` (lines 150-174): resolve the attempt, run the
document-transition block, throw when `astNodeIds` is absent (line 164),
run the rule block, render the scenario head. -/
def onTestCaseStarted (c : String → TestCaseAttempt) (s : FormatterState)
    (e : TestCaseStarted) : FormatterState × List Out × Option Err :=
  let att := c (e.id.getD "")
  let doc := att.gherkinDocument
  let fr := featureReset s doc
  match att.pickle.astNodeIds with
  | none => (fr.1, fr.2, some Err.pickleAstMissing)
  | some ids =>
      let rs := ruleStep fr.1 doc ids
      let sh := renderScenarioHead rs.1 doc att.pickle
      (rs.1, fr.2 ++ rs.2 ++ sh.1, sh.2)

/-- `getPickleStepMap` of the external helpers: pickle step id -> step. -/
def getPickleStepMap (pickle : Pickle) : List (String × PickleStep) :=
  pickle.steps.map (fun st => (st.id, st))

/-- `onTestStepStarted` (lines 176-228).  A missing runtime step, or one
without a `pickleStepId` (a hook; the empty string is falsy too), is
silently skipped.  A dangling `pickleStepId` makes `pickleStep` `undefined`
and reading `astNodeIds` raises a TypeError (line 193); a dangling first
AST node id likewise raises on `gherkinStep.keyword` (line 195). -/
def onTestStepStarted (c : String → TestCaseAttempt) (s : FormatterState)
    (e : TestStepStarted) : FormatterState × List Out × Option Err :=
  let att := c (e.testCaseStartedId.getD "")
  match (att.testCase.testSteps.getD []).find? (fun item => item.id == e.testStepId) with
  | none => (s, [], none)
  | some ts =>
      match ts.pickleStepId with
      | none => (s, [], none)
      | some psId =>
          if psId = "" then (s, [], none)
          else
            match jsLookup (getPickleStepMap att.pickle) (some psId) with
            | none => (s, [], some (Err.typeError "astNodeIds"))
            | some pickleStep =>
                match jsLookup att.gherkinDocument.stepMap pickleStep.astNodeIds.head? with
                | none => (s, [], some (Err.typeError "keyword"))
                | some gherkinStep =>
                    (s,
                     [Out.item (effIndent s.indentOffset (themeItemIndentations ThemeItem.StepKeyword))
                        ThemeItem.StepKeyword [gherkinStep.keyword],
                      Out.sp,
                      Out.item (effIndent s.indentOffset (themeItemIndentations ThemeItem.StepText))
                        ThemeItem.StepText [pickleStep.text],
                      Out.nl]
                     ++ (match gherkinStep.docString with
                         | some ds =>
                             [Out.item (effIndent s.indentOffset (themeItemIndentations ThemeItem.DocStringDelimiter))
                                ThemeItem.DocStringDelimiter [ds.delimiter], Out.nl,
                              Out.item (effIndent s.indentOffset (themeItemIndentations ThemeItem.DocStringContent))
                                ThemeItem.DocStringContent [ds.content], Out.nl,
                              Out.item (effIndent s.indentOffset (themeItemIndentations ThemeItem.DocStringDelimiter))
                                ThemeItem.DocStringDelimiter [ds.delimiter], Out.nl]
                         | none => [])
                     ++ (match gherkinStep.dataTable with
                         | some dt =>
                             [Out.table (effIndent s.indentOffset (themeItemIndentations ThemeItem.DataTable))
                                (dt.rows.map (fun row => (row.cells.getD []).map (fun cell => jsOrStr cell.value ""))),
                              Out.nl]
                         | none => []),
                     none)

/-- `onTestStepFinished` (lines 230-247): destructure the result
(`testStepResult || {}`); when a status is present and is not PASSED,
render the status line (mark, space, lowercased status key, colorized by
the external `colorFns`) and, when a truthy message is present, the
message line. -/
def onTestStepFinished (s : FormatterState) (e : TestStepFinished) :
    FormatterState × List Out × Option Err :=
  let message := e.testStepResult.bind TestStepResult.message
  let status := e.testStepResult.bind TestStepResult.status
  match status with
  | none => (s, [], none)
  | some st =>
      if st = Status.PASSED then (s, [], none)
      else
        (s,
         [Out.item (effIndent s.indentOffset (themeItemIndentations ThemeItem.StepStatus))
            ThemeItem.StepStatus [marks st ++ " " ++ (statusKey st).toLower],
          Out.nl]
         ++ (match message with
             | some m =>
                 if m = "" then []
                 else
                   [Out.item (effIndent s.indentOffset (themeItemIndentations ThemeItem.StepMessage))
                      ThemeItem.StepMessage [m], Out.nl]
             | none => []),
         none)

/-- `onTestCaseFinished` (lines 249-251): one blank separator line. -/
def onTestCaseFinished (s : FormatterState) : FormatterState × List Out × Option Err :=
  (s, [Out.nl], none)

/-- Sequencing of the `if` statements of `parseEnvelope`: a throw in an
earlier handler aborts the rest of the envelope and propagates. -/
def thenRun (r : FormatterState × List Out × Option Err)
    (f : FormatterState → FormatterState × List Out × Option Err) :
    FormatterState × List Out × Option Err :=
  match r with
  | (s, o, some err) => (s, o, some err)
  | (s, o, none) =>
      let r2 := f s
      (r2.1, o ++ r2.2.1, r2.2.2)

/-- `parseEnvelope` (lines 139-148): the four kind fields are checked in
order, each present one handled. -/
def parseEnvelope (c : String → TestCaseAttempt) (s : FormatterState) (env : Envelope) :
    FormatterState × List Out × Option Err :=
  thenRun
    (thenRun
      (thenRun
        (match env.testCaseStarted with
         | some e => onTestCaseStarted c s e
         | none => (s, [], none))
        (fun s1 =>
          match env.testStepStarted with
          | some e => onTestStepStarted c s1 e
          | none => (s1, [], none)))
      (fun s2 =>
        match env.testStepFinished with
        | some e => onTestStepFinished s2 e
        | none => (s2, [], none)))
    (fun s3 =>
      match env.testCaseFinished with
      | some _ => onTestCaseFinished s3
      | none => (s3, [], none))

/-- Process a whole event stream in delivery order; a propagated error
aborts the run (the state and output produced so far remain). -/
def processEnvelopes (c : String → TestCaseAttempt) (s : FormatterState) :
    List Envelope → FormatterState × List Out × Option Err
  | [] => (s, [], none)
  | env :: rest =>
      match parseEnvelope c s env with
      | (s1, o1, some err) => (s1, o1, some err)
      | (s1, o1, none) =>
          let r := processEnvelopes c s1 rest
          (r.1, o1 ++ r.2.1, r.2.2)

/-! ## Observations used by the theorems -/

/-- A feature-head keyword item (each `renderFeatureHead` emits exactly one). -/
def isFeatureHeadItem : Out → Bool
  | Out.item _ ThemeItem.FeatureKeyword _ => true
  | _ => false

/-- A rule-head keyword item (each `renderRule` emits exactly one). -/
def isRuleHeadItem : Out → Bool
  | Out.item _ ThemeItem.RuleKeyword _ => true
  | _ => false

/-- A step status line item. -/
def isStatusLine : Out → Bool
  | Out.item _ ThemeItem.StepStatus _ => true
  | _ => false

/-- A step message line item. -/
def isMessageLine : Out → Bool
  | Out.item _ ThemeItem.StepMessage _ => true
  | _ => false

/-- Number of feature heads in an output list. -/
def countFeatureHeads (out : List Out) : Nat := out.countP isFeatureHeadItem

/-- Number of rule heads in an output list. -/
def countRuleHeads (out : List Out) : Nat := out.countP isRuleHeadItem

/-- A rule-head keyword item whose effective indentation is not the base
width 2, i.e. one rendered while the indent offset was nonzero. -/
def badRuleIndent : Out → Bool
  | Out.item i ThemeItem.RuleKeyword _ => decide (i ≠ 2)
  | _ => false

/-- The document an attempt-started event resolves to. -/
def attemptDoc (c : String → TestCaseAttempt) (e : TestCaseStarted) : GherkinDocument :=
  (c (e.id.getD "")).gherkinDocument

/-- The pickle an attempt-started event resolves to. -/
def attemptPickle (c : String → TestCaseAttempt) (e : TestCaseStarted) : Pickle :=
  (c (e.id.getD "")).pickle

/-- The guard of the document-transition block (line 156): tracked uri
differs and a feature resolves. -/
def featureRenderCond (c : String → TestCaseAttempt) (s : FormatterState)
    (e : TestCaseStarted) : Bool :=
  decide (s.uri ≠ (attemptDoc c e).uri) && (attemptDoc c e).feature.isSome

/-- How many rule heads one attempt-started renders: one exactly when the
AST links are present, a rule resolves from the first id, and its id
differs from the rule id tracked after the document-transition block. -/
def ruleRenderCount (c : String → TestCaseAttempt) (s : FormatterState)
    (e : TestCaseStarted) : Nat :=
  let lr := if featureRenderCond c s e then none else s.lastRuleId
  match (attemptPickle c e).astNodeIds with
  | none => 0
  | some ids =>
      match jsLookup (attemptDoc c e).exampleRuleMap ids.head? with
      | none => 0
      | some r => if lr = some r.id then 0 else 1

/-- The status condition of line 233: a status is present and not PASSED. -/
def statusActive (e : TestStepFinished) : Bool :=
  match e.testStepResult.bind TestStepResult.status with
  | some st => decide (st ≠ Status.PASSED)
  | none => false

/-- The message condition of line 242: a truthy (present, non-empty)
message is attached. -/
def messageTruthy (e : TestStepFinished) : Bool :=
  match e.testStepResult.bind TestStepResult.message with
  | some m => decide (m ≠ "")
  | none => false

/-- The silently-skipped condition of line 191: no runtime step matches
the event's step id, or the matching one has no truthy `pickleStepId`
(it is a hook or otherwise has no source step). -/
def stepUnresolvable (c : String → TestCaseAttempt) (e : TestStepStarted) : Bool :=
  match ((c (e.testCaseStartedId.getD "")).testCase.testSteps.getD []).find?
      (fun item => item.id == e.testStepId) with
  | none => true
  | some ts =>
      match ts.pickleStepId with
      | none => true
      | some psId => decide (psId = "")

/-! ## Concrete fixtures

Small documents, pickles and streams used for the concrete evaluations.
Each claim has its own fixtures. -/

/-- Document with two rules under one feature; AST ids a1 and a2 belong to
scenarios under rules r1 and r2 respectively. -/
def c1Doc : GherkinDocument :=
  { uri := some "x.feature"
    feature := some { keyword := some "Feature", name := some "F", description := none,
                      tags := none, location := none }
    exampleRuleMap := [("a1", { id := "r1", keyword := "Rule", name := some "R1" }),
                       ("a2", { id := "r2", keyword := "Rule", name := some "R2" })]
    scenarioMap := [("a1", { keyword := some "Scenario", location := none }),
                    ("a2", { keyword := some "Scenario", location := none })]
    stepMap := [] }

/-- Three attempts on `c1Doc`: t1 and t3 under rule r1, t2 under rule r2. -/
def c1Collector : String → TestCaseAttempt := fun id =>
  if id = "t2" then
    { gherkinDocument := c1Doc,
      pickle := { name := some "S2", tags := none, astNodeIds := some ["a2"], steps := [] },
      testCase := { testSteps := none } }
  else
    { gherkinDocument := c1Doc,
      pickle := { name := some "S1", tags := none, astNodeIds := some ["a1"], steps := [] },
      testCase := { testSteps := none } }

/-- Attempt-started stream t1, t2, t3: rules r1, r2, r1 in one document. -/
def c1Stream : List Envelope :=
  [{ testCaseStarted := some { id := some "t1" }, testStepStarted := none,
     testStepFinished := none, testCaseFinished := none },
   { testCaseStarted := some { id := some "t2" }, testStepStarted := none,
     testStepFinished := none, testCaseFinished := none },
   { testCaseStarted := some { id := some "t3" }, testStepStarted := none,
     testStepFinished := none, testCaseFinished := none }]

/-- Document with one rule (AST id a1) and one rule-less scenario (b1). -/
def c2Doc : GherkinDocument :=
  { uri := some "x.feature"
    feature := some { keyword := some "Feature", name := some "F", description := none,
                      tags := none, location := none }
    exampleRuleMap := [("a1", { id := "r1", keyword := "Rule", name := some "R1" })]
    scenarioMap := [("a1", { keyword := some "Scenario", location := none }),
                    ("b1", { keyword := some "Scenario", location := none })]
    stepMap := [] }

/-- Attempt t1 under rule r1, attempt t2 with no rule, same document. -/
def c2Collector : String → TestCaseAttempt := fun id =>
  if id = "t2" then
    { gherkinDocument := c2Doc,
      pickle := { name := some "S2", tags := none, astNodeIds := some ["b1"], steps := [] },
      testCase := { testSteps := none } }
  else
    { gherkinDocument := c2Doc,
      pickle := { name := some "S1", tags := none, astNodeIds := some ["a1"], steps := [] },
      testCase := { testSteps := none } }

def c2Stream : List Envelope :=
  [{ testCaseStarted := some { id := some "t1" }, testStepStarted := none,
     testStepFinished := none, testCaseFinished := none },
   { testCaseStarted := some { id := some "t2" }, testStepStarted := none,
     testStepFinished := none, testCaseFinished := none }]

/-- First document, uri x.feature, with a feature. -/
def c3DocX : GherkinDocument :=
  { uri := some "x.feature"
    feature := some { keyword := some "Feature", name := some "F", description := none,
                      tags := none, location := none }
    exampleRuleMap := []
    scenarioMap := [("a1", { keyword := some "Scenario", location := none })]
    stepMap := [] }

/-- Second document, uri y.feature, with NO resolvable feature. -/
def c3DocY : GherkinDocument :=
  { uri := some "y.feature"
    feature := none
    exampleRuleMap := []
    scenarioMap := [("b1", { keyword := some "Scenario", location := none })]
    stepMap := [] }

/-- Attempt t1 on the x document, attempt t2 on the feature-less y document. -/
def c3Collector : String → TestCaseAttempt := fun id =>
  if id = "t2" then
    { gherkinDocument := c3DocY,
      pickle := { name := some "S2", tags := none, astNodeIds := some ["b1"], steps := [] },
      testCase := { testSteps := none } }
  else
    { gherkinDocument := c3DocX,
      pickle := { name := some "S1", tags := none, astNodeIds := some ["a1"], steps := [] },
      testCase := { testSteps := none } }

def c3Stream : List Envelope :=
  [{ testCaseStarted := some { id := some "t1" }, testStepStarted := none,
     testStepFinished := none, testCaseFinished := none },
   { testCaseStarted := some { id := some "t2" }, testStepStarted := none,
     testStepFinished := none, testCaseFinished := none }]

/-- Document whose scenario map does not contain the pickle's first AST id. -/
def c4Doc : GherkinDocument :=
  { uri := some "x.feature"
    feature := some { keyword := some "Feature", name := some "F", description := none,
                      tags := none, location := none }
    exampleRuleMap := []
    scenarioMap := [("s1", { keyword := some "Scenario", location := none })]
    stepMap := [] }

/-- Attempt whose pickle HAS AST links, but the first one dangles. -/
def c4Collector : String → TestCaseAttempt := fun _ =>
  { gherkinDocument := c4Doc,
    pickle := { name := some "S", tags := none, astNodeIds := some ["dangling"], steps := [] },
    testCase := { testSteps := none } }

def c4Event : TestCaseStarted := { id := some "t1" }

/-- Step-finished event with FAILED status and an attached EMPTY message. -/
def c5Event : TestStepFinished :=
  { testStepResult := some { status := some Status.FAILED, message := some "" } }

/-- Attempt whose test case contains one hook step (no `pickleStepId`). -/
def c6Collector : String → TestCaseAttempt := fun _ =>
  { gherkinDocument :=
      { uri := some "x.feature", feature := none, exampleRuleMap := [],
        scenarioMap := [], stepMap := [] },
    pickle := { name := some "S", tags := none, astNodeIds := some ["a1"], steps := [] },
    testCase := { testSteps := some [{ id := "h1", pickleStepId := none }] } }

def c6Event : TestStepStarted := { testCaseStartedId := some "t1", testStepId := "h1" }

/-- Document resolving AST id s1 to a scenario at line 5; sX is absent. -/
def c7Doc : GherkinDocument :=
  { uri := some "x.feature"
    feature := some { keyword := some "Feature", name := some "F", description := none,
                      tags := none, location := none }
    exampleRuleMap := []
    scenarioMap := [("s1", { keyword := some "Scenario", location := some { line := some 5 } })]
    stepMap := [] }

/-- Pickle whose first AST id resolves in `c7Doc`, with one tag. -/
def c7PickleOk : Pickle :=
  { name := some "S1", tags := some [{ name := some "@a" }],
    astNodeIds := some ["s1"], steps := [] }

/-- Pickle whose first AST id does NOT resolve in `c7Doc`. -/
def c7PickleBad : Pickle :=
  { name := some "S1", tags := none, astNodeIds := some ["sX"], steps := [] }

/-- A tracker state with document x.feature current and no rule active. -/
def c7State : FormatterState :=
  { uri := some "x.feature", lastRuleId := none, indentOffset := 0 }

/-- The document of the worked example: feature F in x.feature, scenario
S1 (AST id s1, line 3) with no rule, one step g1 with keyword Given. -/
def c8Doc : GherkinDocument :=
  { uri := some "x.feature"
    feature := some { keyword := some "Feature", name := some "F", description := none,
                      tags := none, location := none }
    exampleRuleMap := []
    scenarioMap := [("s1", { keyword := some "Scenario", location := some { line := some 3 } })]
    stepMap := [("g1", { keyword := "Given", docString := none, dataTable := none })] }

def c8Collector : String → TestCaseAttempt := fun _ =>
  { gherkinDocument := c8Doc,
    pickle := { name := some "S1", tags := none, astNodeIds := some ["s1"],
                steps := [{ id := "ps1", text := "a", astNodeIds := ["g1"] }] },
    testCase := { testSteps := some [{ id := "ts1", pickleStepId := some "ps1" }] } }

/-- The four-event stream of the worked example: attempt-started,
step-started, step-finished (passed), attempt-finished. -/
def c8Stream : List Envelope :=
  [{ testCaseStarted := some { id := some "t1" }, testStepStarted := none,
     testStepFinished := none, testCaseFinished := none },
   { testCaseStarted := none, testStepStarted := some { testCaseStartedId := some "t1", testStepId := "ts1" },
     testStepFinished := none, testCaseFinished := none },
   { testCaseStarted := none, testStepStarted := none,
     testStepFinished := some { testStepResult := some { status := some Status.PASSED, message := none } },
     testCaseFinished := none },
   { testCaseStarted := none, testStepStarted := none,
     testStepFinished := none, testCaseFinished := some () }]

/-- Attempt whose pickle carries an EMPTY (present) AST id list. -/
def c9Collector : String → TestCaseAttempt := fun _ =>
  { gherkinDocument := c4Doc,
    pickle := { name := some "S", tags := none, astNodeIds := some [], steps := [] },
    testCase := { testSteps := none } }

/-- Attempt whose pickle has NO AST id list at all. -/
def c9AbsentCollector : String → TestCaseAttempt := fun _ =>
  { gherkinDocument := c4Doc,
    pickle := { name := some "S", tags := none, astNodeIds := none, steps := [] },
    testCase := { testSteps := none } }

def c9Event : TestCaseStarted := { id := some "t1" }

/-- Attempt on a new document (uri z.feature, resolvable feature) whose
pickle has no AST links: the fatal error follows the feature head. -/
def c10Collector : String → TestCaseAttempt := fun _ =>
  { gherkinDocument :=
      { uri := some "z.feature"
        feature := some { keyword := some "Feature", name := some "Z", description := none,
                          tags := none, location := none }
        exampleRuleMap := [], scenarioMap := [], stepMap := [] },
    pickle := { name := some "S", tags := none, astNodeIds := none, steps := [] },
    testCase := { testSteps := none } }

def c10Event : TestCaseStarted := { id := some "t1" }

/-! ## Concrete theorems (counterexamples, code-bug evaluations, worked example) -/

/-- Claim C1, counterexample: in a single document (uri x.feature) the
attempts t1, t2, t3 run under rules r1, r2, r1; the whole stream processes
without error, yet the head of rule r1 (the only rule named R1) is
rendered twice — the tracker only remembers the LAST rule id, so the
(document, rule-id) pair (x.feature, r1) gets two rule heads. -/
theorem C1_counterexample :
    (processEnvelopes c1Collector initState c1Stream).2.1.countP
        (fun o => decide (o = Out.item 0 ThemeItem.RuleName ["R1"])) = 2
      ∧ (processEnvelopes c1Collector initState c1Stream).2.2 = none := by
  decide

/-- Claim C2, counterexample: attempt t1 runs under rule r1, then attempt
t2 — in the same document — has no rule (its rule lookup is `none`), yet
after processing both the indentation offset is still 2, not 0: the
offset does not return to 0 for a rule-less scenario following a ruled
one in the same document. -/
theorem C2_counterexample :
    jsLookup (c2Collector "t2").gherkinDocument.exampleRuleMap
        (((c2Collector "t2").pickle.astNodeIds.getD []).head?) = none
      ∧ (processEnvelopes c2Collector initState c2Stream).1.indentOffset = 2
      ∧ (processEnvelopes c2Collector initState c2Stream).2.2 = none := by
  decide

/-- Claim C3, counterexample: attempt t2's document has uri y.feature,
different from the tracked x.feature, and NO resolvable feature; the
handler runs without error but the tracked uri is NOT updated to
y.feature — it stays x.feature, because the transition block requires a
feature to resolve. -/
theorem C3_counterexample :
    (c3Collector "t2").gherkinDocument.uri = some "y.feature"
      ∧ (c3Collector "t2").gherkinDocument.feature = none
      ∧ (processEnvelopes c3Collector initState c3Stream).2.2 = none
      ∧ (processEnvelopes c3Collector initState c3Stream).1.uri = some "x.feature" := by
  decide

/-- Claim C4, failing input: the pickle HAS linked AST node ids
(`some ["dangling"]`), yet handling the attempt raises an error — the
TypeError from reading `keyword` of the unresolved scenario (line 308 of
index.ts), not the missing-AST-links error.  So an error is raised
although the pickle's AST links are present, contradicting the claimed
"if and only if". -/
theorem C4_error_despite_astNodeIds_present :
    (c4Collector "t1").pickle.astNodeIds = some ["dangling"]
      ∧ (onTestCaseStarted c4Collector initState c4Event).2.2
          = some (Err.typeError "keyword")
      ∧ (onTestCaseStarted c4Collector initState c4Event).2.2
          ≠ some Err.pickleAstMissing := by
  decide

/-- Claim C5, counterexample: a FAILED result with an ATTACHED but empty
message renders the status line and NO message line — the message is
falsy in JavaScript, so "a message line if and only if a message is
attached" fails at this input. -/
theorem C5_counterexample :
    c5Event.testStepResult.bind TestStepResult.message = some ""
      ∧ (onTestStepFinished initState c5Event).2.1.countP isStatusLine = 1
      ∧ (onTestStepFinished initState c5Event).2.1.countP isMessageLine = 0 := by
  decide

/-- Claim C7: when the pickle's first AST node id resolves in the
document's scenario lookup, the head is rendered — tag line at
indentation 2, keyword-colon-name, and the location reference IS appended
(first conjunct).  But when the id does NOT resolve, the handler does not
render the head without a location: reading `scenario.keyword` (line 308)
throws a TypeError before the (dead) resolution guard of line 311 — the
code crashes where its own guard and the `??? ` keyword fallback show the
intent of tolerating the miss (second and third conjuncts). -/
theorem C7_scenario_head_location_and_crash :
    (renderScenarioHead c7State c7Doc c7PickleOk)
        = ([Out.item 2 ThemeItem.Tag ["@a"], Out.nl,
            Out.item 2 ThemeItem.ScenarioKeyword ["Scenario", ":"], Out.sp,
            Out.item 0 ThemeItem.ScenarioName ["S1"], Out.sp,
            Out.loc 0 "x.feature" 5, Out.nl], none)
      ∧ jsLookup c7Doc.scenarioMap ((c7PickleBad.astNodeIds.getD []).head?) = none
      ∧ (renderScenarioHead c7State c7Doc c7PickleBad)
          = ([], some (Err.typeError "keyword")) := by
  decide

/-- Claim C8: the four-event stream [attempt-started(t1), step-started,
step-finished(passed), attempt-finished] over the document x.feature
produces exactly the feature head for F, the scenario head for S1 (with
its location reference), the step line Given a with no status line, and
one blank separator line; no rule head appears and no error is raised. -/
theorem C8_example_stream_exact_output :
    processEnvelopes c8Collector initState c8Stream
        = ({ uri := some "x.feature", lastRuleId := none, indentOffset := 0 },
           [Out.item 0 ThemeItem.FeatureKeyword ["Feature", ":"], Out.sp,
            Out.item 0 ThemeItem.FeatureName ["F"], Out.nl, Out.nl,
            Out.item 2 ThemeItem.ScenarioKeyword ["Scenario", ":"], Out.sp,
            Out.item 0 ThemeItem.ScenarioName ["S1"], Out.sp,
            Out.loc 0 "x.feature" 3, Out.nl,
            Out.item 4 ThemeItem.StepKeyword ["Given"], Out.sp,
            Out.item 0 ThemeItem.StepText ["a"], Out.nl,
            Out.nl],
           none)
      ∧ countRuleHeads (processEnvelopes c8Collector initState c8Stream).2.1 = 0 := by
  decide

/-! ## Counting lemmas over the render routines -/

lemma countP_renderTagsRest (s : FormatterState) (ts : List String) (p : Out → Bool)
    (hsp : p Out.sp = false)
    (hit : ∀ j l, p (Out.item j ThemeItem.Tag l) = false) :
    (renderTagsRest s ts).countP p = 0 := by
  induction ts with
  | nil => rfl
  | cons t ts ih => simp [renderTagsRest, List.countP_cons, hsp, hit, ih]

lemma countP_renderTags (s : FormatterState) (i : Nat) (tags : List Tag) (p : Out → Bool)
    (hsp : p Out.sp = false) (hnl : p Out.nl = false)
    (hit : ∀ j l, p (Out.item j ThemeItem.Tag l) = false) :
    (renderTags s i tags).countP p = 0 := by
  unfold renderTags
  cases htn : tagNames tags with
  | nil => rfl
  | cons first rest =>
      simp [List.countP_cons, List.countP_append, hsp, hnl, hit,
            countP_renderTagsRest s rest p hsp hit]

lemma countP_renderFeatureHead (s : FormatterState) (f : Feature) (p : Out → Bool) (b : Bool)
    (hsp : p Out.sp = false) (hnl : p Out.nl = false)
    (hit : ∀ j l, p (Out.item j ThemeItem.Tag l) = false)
    (hfn : ∀ j l, p (Out.item j ThemeItem.FeatureName l) = false)
    (hloc : ∀ j u ln, p (Out.loc j u ln) = false)
    (hdesc : ∀ j r, p (Out.desc j r) = false)
    (hfk : ∀ j l, p (Out.item j ThemeItem.FeatureKeyword l) = b) :
    (renderFeatureHead s f).countP p = if b then 1 else 0 := by
  unfold renderFeatureHead renderLocation
  cases hl : f.location <;> cases hd : f.description <;>
    simp [List.countP_append, List.countP_cons, hsp, hnl, hit, hfn, hloc, hdesc, hfk,
          countP_renderTags s 0 _ p hsp hnl hit]
  all_goals
    intro a hne hmem
    rcases hmem with rfl | rfl | rfl <;> simp [hnl, hdesc]

lemma countP_renderRule (s : FormatterState) (r : Rule) (p : Out → Bool) (b : Bool)
    (hsp : p Out.sp = false) (hnl : p Out.nl = false)
    (hrn : ∀ j l, p (Out.item j ThemeItem.RuleName l) = false)
    (hrk : p (Out.item (effIndent s.indentOffset (themeItemIndentations ThemeItem.RuleKeyword))
        ThemeItem.RuleKeyword [r.keyword, ":"]) = b) :
    (renderRule s r).countP p = if b then 1 else 0 := by
  simp [renderRule, List.countP_cons, hsp, hnl, hrn, hrk]

lemma countP_renderScenarioHead (s : FormatterState) (d : GherkinDocument) (pk : Pickle)
    (p : Out → Bool)
    (hsp : p Out.sp = false) (hnl : p Out.nl = false)
    (hit : ∀ j l, p (Out.item j ThemeItem.Tag l) = false)
    (hsk : ∀ j l, p (Out.item j ThemeItem.ScenarioKeyword l) = false)
    (hsn : ∀ j l, p (Out.item j ThemeItem.ScenarioName l) = false)
    (hloc : ∀ j u ln, p (Out.loc j u ln) = false) :
    ((renderScenarioHead s d pk).1).countP p = 0 := by
  unfold renderScenarioHead renderLocation
  cases ha : pk.astNodeIds with
  | none => simp [countP_renderTags s 2 _ p hsp hnl hit]
  | some ids =>
      cases hsc : jsLookup d.scenarioMap ids.head? with
      | none => simp [hsc, countP_renderTags s 2 _ p hsp hnl hit]
      | some sc =>
          simp [hsc, List.countP_append, List.countP_cons, hsp, hnl, hsk, hsn, hloc,
                countP_renderTags s 2 _ p hsp hnl hit]

/-! ## State characterization of the attempt-started handler -/

lemma featureReset_fst (s : FormatterState) (doc : GherkinDocument) :
    (featureReset s doc).1
      = if decide (s.uri ≠ doc.uri) && doc.feature.isSome then
          { uri := some (doc.uri.getD ""), lastRuleId := none, indentOffset := 0 }
        else s := by
  unfold featureReset
  cases hf : doc.feature with
  | none => simp
  | some f => by_cases hu : s.uri = doc.uri <;> simp [hu]

lemma countP_featureReset (s : FormatterState) (doc : GherkinDocument) (p : Out → Bool)
    (b : Bool)
    (hsp : p Out.sp = false) (hnl : p Out.nl = false)
    (hit : ∀ j l, p (Out.item j ThemeItem.Tag l) = false)
    (hfn : ∀ j l, p (Out.item j ThemeItem.FeatureName l) = false)
    (hloc : ∀ j u ln, p (Out.loc j u ln) = false)
    (hdesc : ∀ j r, p (Out.desc j r) = false)
    (hfk : ∀ j l, p (Out.item j ThemeItem.FeatureKeyword l) = b) :
    ((featureReset s doc).2).countP p
      = if (decide (s.uri ≠ doc.uri) && doc.feature.isSome) && b then 1 else 0 := by
  unfold featureReset
  cases hf : doc.feature with
  | none => simp
  | some f =>
      by_cases hu : s.uri = doc.uri <;>
        simp [hu, countP_renderFeatureHead _ f p b hsp hnl hit hfn hloc hdesc hfk]

lemma ruleStep_fst (s : FormatterState) (doc : GherkinDocument) (ids : List String) :
    (ruleStep s doc ids).1
      = match jsLookup doc.exampleRuleMap ids.head? with
        | none => s
        | some r =>
            if s.lastRuleId ≠ some r.id then
              { uri := s.uri, lastRuleId := some r.id, indentOffset := 2 }
            else s := by
  unfold ruleStep
  cases hr : jsLookup doc.exampleRuleMap ids.head? with
  | none => simp
  | some r => by_cases hl : s.lastRuleId = some r.id <;> simp [hl]

lemma ruleStep_uri (s : FormatterState) (doc : GherkinDocument) (ids : List String) :
    (ruleStep s doc ids).1.uri = s.uri := by
  rw [ruleStep_fst]
  cases hr : jsLookup doc.exampleRuleMap ids.head? with
  | none => rfl
  | some r => by_cases hl : s.lastRuleId = some r.id <;> simp [hl]

lemma ruleStep_lastRuleId (s : FormatterState) (doc : GherkinDocument) (ids : List String) :
    (ruleStep s doc ids).1.lastRuleId
      = match jsLookup doc.exampleRuleMap ids.head? with
        | none => s.lastRuleId
        | some r => some r.id := by
  rw [ruleStep_fst]
  cases hr : jsLookup doc.exampleRuleMap ids.head? with
  | none => rfl
  | some r => by_cases hl : s.lastRuleId = some r.id <;> simp [hl]

lemma countP_ruleStep (s : FormatterState) (doc : GherkinDocument) (ids : List String)
    (p : Out → Bool) (b : Bool)
    (hsp : p Out.sp = false) (hnl : p Out.nl = false)
    (hrn : ∀ j l, p (Out.item j ThemeItem.RuleName l) = false)
    (hrk : ∀ r : Rule, p (Out.item 2 ThemeItem.RuleKeyword [r.keyword, ":"]) = b) :
    ((ruleStep s doc ids).2).countP p
      = match jsLookup doc.exampleRuleMap ids.head? with
        | none => 0
        | some r => if decide (s.lastRuleId ≠ some r.id) && b then 1 else 0 := by
  unfold ruleStep
  cases hr : jsLookup doc.exampleRuleMap ids.head? with
  | none => simp
  | some r =>
      have hcr := countP_renderRule { s with indentOffset := 0 } r p b hsp hnl hrn (hrk r)
      by_cases hl : s.lastRuleId = some r.id <;> simp [hl, hcr]

lemma featureReset_uri (s : FormatterState) (doc : GherkinDocument) :
    (featureReset s doc).1.uri
      = if decide (s.uri ≠ doc.uri) && doc.feature.isSome then some (doc.uri.getD "")
        else s.uri := by
  rw [featureReset_fst]; split <;> rfl

lemma featureReset_lastRuleId (s : FormatterState) (doc : GherkinDocument) :
    (featureReset s doc).1.lastRuleId
      = if decide (s.uri ≠ doc.uri) && doc.feature.isSome then none else s.lastRuleId := by
  rw [featureReset_fst]; split <;> rfl

lemma onTestCaseStarted_fst (c : String → TestCaseAttempt) (s : FormatterState)
    (e : TestCaseStarted) :
    (onTestCaseStarted c s e).1
      = match (attemptPickle c e).astNodeIds with
        | none => (featureReset s (attemptDoc c e)).1
        | some ids => (ruleStep (featureReset s (attemptDoc c e)).1 (attemptDoc c e) ids).1 := by
  unfold onTestCaseStarted attemptPickle attemptDoc
  cases h : (c (e.id.getD "")).pickle.astNodeIds <;> simp [h]

lemma onTestCaseStarted_out (c : String → TestCaseAttempt) (s : FormatterState)
    (e : TestCaseStarted) :
    (onTestCaseStarted c s e).2.1
      = match (attemptPickle c e).astNodeIds with
        | none => (featureReset s (attemptDoc c e)).2
        | some ids =>
            (featureReset s (attemptDoc c e)).2
              ++ (ruleStep (featureReset s (attemptDoc c e)).1 (attemptDoc c e) ids).2
              ++ (renderScenarioHead
                    (ruleStep (featureReset s (attemptDoc c e)).1 (attemptDoc c e) ids).1
                    (attemptDoc c e) (attemptPickle c e)).1 := by
  unfold onTestCaseStarted attemptPickle attemptDoc
  cases h : (c (e.id.getD "")).pickle.astNodeIds <;> simp [h]

lemma onTestCaseStarted_uri (c : String → TestCaseAttempt) (s : FormatterState)
    (e : TestCaseStarted) :
    (onTestCaseStarted c s e).1.uri
      = if featureRenderCond c s e then some ((attemptDoc c e).uri.getD "") else s.uri := by
  rw [onTestCaseStarted_fst]
  unfold featureRenderCond
  cases h : (attemptPickle c e).astNodeIds with
  | none => rw [featureReset_uri]
  | some ids => rw [ruleStep_uri, featureReset_uri]

lemma onTestCaseStarted_lastRuleId (c : String → TestCaseAttempt) (s : FormatterState)
    (e : TestCaseStarted) :
    (onTestCaseStarted c s e).1.lastRuleId
      = match (attemptPickle c e).astNodeIds with
        | none => (if featureRenderCond c s e then none else s.lastRuleId)
        | some ids =>
            match jsLookup (attemptDoc c e).exampleRuleMap ids.head? with
            | none => (if featureRenderCond c s e then none else s.lastRuleId)
            | some r => some r.id := by
  rw [onTestCaseStarted_fst]
  unfold featureRenderCond
  cases h : (attemptPickle c e).astNodeIds with
  | none => rw [featureReset_lastRuleId]
  | some ids =>
      rw [ruleStep_lastRuleId, featureReset_lastRuleId]

lemma countFeatureHeads_onTestCaseStarted (c : String → TestCaseAttempt)
    (s : FormatterState) (e : TestCaseStarted) :
    countFeatureHeads (onTestCaseStarted c s e).2.1
      = if featureRenderCond c s e then 1 else 0 := by
  rw [countFeatureHeads, onTestCaseStarted_out]
  unfold featureRenderCond
  cases h : (attemptPickle c e).astNodeIds with
  | none =>
      rw [countP_featureReset _ _ _ true rfl rfl (fun _ _ => rfl) (fun _ _ => rfl)
            (fun _ _ _ => rfl) (fun _ _ => rfl) (fun _ _ => rfl)]
      simp
  | some ids =>
      rw [List.countP_append, List.countP_append,
          countP_featureReset _ _ _ true rfl rfl (fun _ _ => rfl) (fun _ _ => rfl)
            (fun _ _ _ => rfl) (fun _ _ => rfl) (fun _ _ => rfl),
          countP_ruleStep _ _ _ _ false rfl rfl (fun _ _ => rfl) (fun _ => rfl),
          countP_renderScenarioHead _ _ _ _ rfl rfl (fun _ _ => rfl) (fun _ _ => rfl)
            (fun _ _ => rfl) (fun _ _ _ => rfl)]
      cases hr : jsLookup (attemptDoc c e).exampleRuleMap ids.head? <;> simp

lemma countRuleHeads_onTestCaseStarted (c : String → TestCaseAttempt)
    (s : FormatterState) (e : TestCaseStarted) :
    countRuleHeads (onTestCaseStarted c s e).2.1 = ruleRenderCount c s e := by
  rw [countRuleHeads, onTestCaseStarted_out]
  unfold ruleRenderCount
  cases h : (attemptPickle c e).astNodeIds with
  | none =>
      rw [countP_featureReset _ _ _ false rfl rfl (fun _ _ => rfl) (fun _ _ => rfl)
            (fun _ _ _ => rfl) (fun _ _ => rfl) (fun _ _ => rfl)]
      simp
  | some ids =>
      rw [List.countP_append, List.countP_append,
          countP_featureReset _ _ _ false rfl rfl (fun _ _ => rfl) (fun _ _ => rfl)
            (fun _ _ _ => rfl) (fun _ _ => rfl) (fun _ _ => rfl),
          countP_ruleStep _ _ _ _ true rfl rfl (fun _ _ => rfl) (fun _ => rfl),
          countP_renderScenarioHead _ _ _ _ rfl rfl (fun _ _ => rfl) (fun _ _ => rfl)
            (fun _ _ => rfl) (fun _ _ _ => rfl),
          featureReset_lastRuleId]
      unfold featureRenderCond
      cases hr : jsLookup (attemptDoc c e).exampleRuleMap ids.head? with
      | none => simp [hr]
      | some r =>
          simp only [hr]
          cases hc : decide (s.uri ≠ (attemptDoc c e).uri) && (attemptDoc c e).feature.isSome with
          | true => simp [hc]
          | false => by_cases hl : s.lastRuleId = some r.id <;> simp [hc, hl]

lemma renderScenarioHead_err (s : FormatterState) (d : GherkinDocument) (pk : Pickle) :
    (renderScenarioHead s d pk).2
      = match pk.astNodeIds with
        | none => some Err.pickleAstMissing
        | some ids =>
            match jsLookup d.scenarioMap ids.head? with
            | none => some (Err.typeError "keyword")
            | some _ => none := by
  unfold renderScenarioHead
  cases ha : pk.astNodeIds with
  | none => simp [ha]
  | some ids => cases hsc : jsLookup d.scenarioMap ids.head? <;> simp [ha, hsc]

lemma onTestCaseStarted_err (c : String → TestCaseAttempt) (s : FormatterState)
    (e : TestCaseStarted) :
    (onTestCaseStarted c s e).2.2
      = match (attemptPickle c e).astNodeIds with
        | none => some Err.pickleAstMissing
        | some ids =>
            (renderScenarioHead
              (ruleStep (featureReset s (attemptDoc c e)).1 (attemptDoc c e) ids).1
              (attemptDoc c e) (attemptPickle c e)).2 := by
  unfold onTestCaseStarted attemptPickle attemptDoc
  cases h : (c (e.id.getD "")).pickle.astNodeIds <;> simp [h]

lemma featureRenderCond_after (c : String → TestCaseAttempt) (s : FormatterState)
    (e : TestCaseStarted) (h : ((attemptDoc c e).uri).isSome) :
    featureRenderCond c (onTestCaseStarted c s e).1 e = false := by
  obtain ⟨u, hu⟩ := Option.isSome_iff_exists.mp h
  have huri := onTestCaseStarted_uri c s e
  unfold featureRenderCond at huri ⊢
  cases hf : (attemptDoc c e).feature with
  | none => simp [hf]
  | some f =>
      rw [hf] at huri
      by_cases hne : s.uri = (attemptDoc c e).uri
      · simp [hne] at huri
        simp [huri, hne, hf]
      · simp [hne] at huri
        simp [huri, hu, hf]

lemma ruleRenderCount_after (c : String → TestCaseAttempt) (s : FormatterState)
    (e : TestCaseStarted) (h : ((attemptDoc c e).uri).isSome) :
    ruleRenderCount c (onTestCaseStarted c s e).1 e = 0 := by
  unfold ruleRenderCount
  rw [featureRenderCond_after c s e h]
  cases ha : (attemptPickle c e).astNodeIds with
  | none => simp
  | some ids =>
      cases hr : jsLookup (attemptDoc c e).exampleRuleMap ids.head? with
      | none => simp [hr]
      | some r =>
          have hlr := onTestCaseStarted_lastRuleId c s e
          rw [ha] at hlr
          simp only [hr] at hlr
          simp [hr, hlr]

/-! ## The indentation-offset invariant -/

/-- The cross-event invariant: the offset is 2 exactly while a rule id is
remembered, and 0 otherwise. -/
def stateInv (s : FormatterState) : Prop :=
  s.indentOffset = if s.lastRuleId.isSome then 2 else 0

lemma stateInv_featureReset (s : FormatterState) (doc : GherkinDocument)
    (h : stateInv s) : stateInv (featureReset s doc).1 := by
  rw [stateInv, featureReset_fst]
  split
  · rfl
  · exact h

lemma stateInv_ruleStep (s : FormatterState) (doc : GherkinDocument) (ids : List String)
    (h : stateInv s) : stateInv (ruleStep s doc ids).1 := by
  rw [stateInv, ruleStep_fst]
  cases hr : jsLookup doc.exampleRuleMap ids.head? with
  | none => exact h
  | some r =>
      by_cases hl : s.lastRuleId = some r.id
      · rw [stateInv] at h
        simp [hl] at h ⊢
        exact h
      · simp [hl]

lemma stateInv_onTestCaseStarted (c : String → TestCaseAttempt) (s : FormatterState)
    (e : TestCaseStarted) (h : stateInv s) : stateInv (onTestCaseStarted c s e).1 := by
  rw [onTestCaseStarted_fst]
  cases ha : (attemptPickle c e).astNodeIds with
  | none => exact stateInv_featureReset s _ h
  | some ids => exact stateInv_ruleStep _ _ _ (stateInv_featureReset s _ h)

lemma countP_badRuleIndent_onTestCaseStarted (c : String → TestCaseAttempt)
    (s : FormatterState) (e : TestCaseStarted) :
    (onTestCaseStarted c s e).2.1.countP badRuleIndent = 0 := by
  rw [onTestCaseStarted_out]
  cases ha : (attemptPickle c e).astNodeIds with
  | none =>
      rw [countP_featureReset _ _ _ false rfl rfl (fun _ _ => rfl) (fun _ _ => rfl)
            (fun _ _ _ => rfl) (fun _ _ => rfl) (fun _ _ => rfl)]
      simp
  | some ids =>
      rw [List.countP_append, List.countP_append,
          countP_featureReset _ _ _ false rfl rfl (fun _ _ => rfl) (fun _ _ => rfl)
            (fun _ _ _ => rfl) (fun _ _ => rfl) (fun _ _ => rfl),
          countP_ruleStep _ _ _ _ false rfl rfl (fun _ _ => rfl) (fun _ => rfl),
          countP_renderScenarioHead _ _ _ _ rfl rfl (fun _ _ => rfl) (fun _ _ => rfl)
            (fun _ _ => rfl) (fun _ _ _ => rfl)]
      cases hr : jsLookup (attemptDoc c e).exampleRuleMap ids.head? <;> simp [hr]

lemma onTestStepStarted_state_badRule (c : String → TestCaseAttempt)
    (s : FormatterState) (e : TestStepStarted) :
    (onTestStepStarted c s e).1 = s
      ∧ (onTestStepStarted c s e).2.1.countP badRuleIndent = 0 := by
  simp only [onTestStepStarted]
  cases hts : ((c (e.testCaseStartedId.getD "")).testCase.testSteps.getD []).find?
      (fun item => item.id == e.testStepId) with
  | none => exact ⟨rfl, rfl⟩
  | some ts =>
      simp only [hts]
      cases hps : ts.pickleStepId with
      | none => exact ⟨rfl, rfl⟩
      | some psId =>
          by_cases he : psId = ""
          · simp [he]
          · simp only [if_neg he]
            cases hpm : jsLookup (getPickleStepMap (c (e.testCaseStartedId.getD "")).pickle)
                (some psId) with
            | none => exact ⟨rfl, rfl⟩
            | some pickleStep =>
                dsimp only
                cases hgm : jsLookup (c (e.testCaseStartedId.getD "")).gherkinDocument.stepMap
                    pickleStep.astNodeIds.head? with
                | none => exact ⟨rfl, rfl⟩
                | some gherkinStep =>
                    dsimp only
                    cases hds : gherkinStep.docString <;> cases hdt : gherkinStep.dataTable <;>
                      simp [hds, hdt, List.countP_append, List.countP_cons, badRuleIndent]

lemma onTestStepFinished_state_badRule (s : FormatterState) (e : TestStepFinished) :
    (onTestStepFinished s e).1 = s
      ∧ (onTestStepFinished s e).2.1.countP badRuleIndent = 0 := by
  simp only [onTestStepFinished]
  cases hres : e.testStepResult.bind TestStepResult.status with
  | none => exact ⟨rfl, rfl⟩
  | some st =>
      by_cases hp : st = Status.PASSED
      · simp [hp]
      · cases hmsg : e.testStepResult.bind TestStepResult.message with
        | none => simp [hp, List.countP_cons, badRuleIndent]
        | some m =>
            by_cases hm : m = "" <;>
              simp [hp, hm, List.countP_cons, List.countP_append, badRuleIndent]

lemma thenRun_inv (r : FormatterState × List Out × Option Err)
    (f : FormatterState → FormatterState × List Out × Option Err)
    (hr : stateInv r.1 ∧ r.2.1.countP badRuleIndent = 0)
    (hf : ∀ s, stateInv s → stateInv (f s).1 ∧ (f s).2.1.countP badRuleIndent = 0) :
    stateInv (thenRun r f).1 ∧ (thenRun r f).2.1.countP badRuleIndent = 0 := by
  obtain ⟨s, o, err⟩ := r
  cases err with
  | some e => exact hr
  | none =>
      have hfs := hf s hr.1
      unfold thenRun
      exact ⟨hfs.1, by simp [List.countP_append, hr.2, hfs.2]⟩

lemma parseEnvelope_inv (c : String → TestCaseAttempt) (env : Envelope)
    (s : FormatterState) (h : stateInv s) :
    stateInv (parseEnvelope c s env).1
      ∧ (parseEnvelope c s env).2.1.countP badRuleIndent = 0 := by
  unfold parseEnvelope
  apply thenRun_inv
  · apply thenRun_inv
    · apply thenRun_inv
      · cases hc : env.testCaseStarted with
        | none => exact ⟨h, rfl⟩
        | some e =>
            exact ⟨stateInv_onTestCaseStarted c s e h,
                   countP_badRuleIndent_onTestCaseStarted c s e⟩
      · intro s1 hs1
        cases hc : env.testStepStarted with
        | none => exact ⟨hs1, rfl⟩
        | some e =>
            refine ⟨?_, (onTestStepStarted_state_badRule c s1 e).2⟩
            rw [stateInv, (onTestStepStarted_state_badRule c s1 e).1]
            exact hs1
    · intro s2 hs2
      cases hc : env.testStepFinished with
      | none => exact ⟨hs2, rfl⟩
      | some e =>
          refine ⟨?_, (onTestStepFinished_state_badRule s2 e).2⟩
          rw [stateInv, (onTestStepFinished_state_badRule s2 e).1]
          exact hs2
  · intro s3 hs3
    cases hc : env.testCaseFinished with
    | none => exact ⟨hs3, rfl⟩
    | some u => exact ⟨hs3, rfl⟩

lemma processEnvelopes_inv (c : String → TestCaseAttempt) (envs : List Envelope) :
    ∀ s, stateInv s →
      stateInv (processEnvelopes c s envs).1
        ∧ (processEnvelopes c s envs).2.1.countP badRuleIndent = 0 := by
  induction envs with
  | nil => intro s h; exact ⟨h, rfl⟩
  | cons env rest ih =>
      intro s h
      unfold processEnvelopes
      have hp := parseEnvelope_inv c env s h
      rcases hres : parseEnvelope c s env with ⟨s1, o1, err1⟩
      rw [hres] at hp
      cases err1 with
      | some e => simpa using hp
      | none =>
          have hi := ih s1 hp.1
          simpa [List.countP_append, hp.2, hi.2] using hi.1

/-! ## Claim theorems over arbitrary inputs -/

/-- Claim C2 (amended): after processing ANY event stream (also one that
aborts on a propagated error), the indentation offset is exactly 0 when no
rule id is remembered and exactly 2 (the rule-nesting width) when one is;
and every rule-head keyword item in the whole output was rendered at
effective indentation 2, i.e. while the offset was 0 — the offset is
raised only after the rule head.  The offset resets at rule boundaries
and at document boundaries that render a feature head; it does NOT reset
for a rule-less scenario following a ruled one in the same document (the
rule id is still remembered — see the counterexample). -/
theorem C2_indentation_amended (c : String → TestCaseAttempt) (envs : List Envelope) :
    ((processEnvelopes c initState envs).1.indentOffset
        = if (processEnvelopes c initState envs).1.lastRuleId.isSome then 2 else 0)
  ∧ (processEnvelopes c initState envs).2.1.countP badRuleIndent = 0 :=
  processEnvelopes_inv c envs initState rfl

/-- Claim C1 (amended): provided the attempt's document has a defined URI,
one attempt-started renders a feature head exactly when the document URI
differs from the tracked one and a feature resolves, and a rule head
exactly when a rule resolves whose id differs from the rule id tracked
after the document transition; consequently an IMMEDIATE repeat of the
same attempt (same document, same rule — e.g. an example-table expansion)
renders no feature head and no rule head.  At-most-once per
(document, feature) / (document, rule-id) holds only in this consecutive
sense: re-entering a document or alternating rule ids renders heads again
(see the counterexample). -/
theorem C1_heads_amended (c : String → TestCaseAttempt) (s : FormatterState)
    (e : TestCaseStarted) (h : ((attemptDoc c e).uri).isSome) :
    (countFeatureHeads (onTestCaseStarted c s e).2.1
        = if featureRenderCond c s e then 1 else 0)
  ∧ countRuleHeads (onTestCaseStarted c s e).2.1 = ruleRenderCount c s e
  ∧ countFeatureHeads (onTestCaseStarted c (onTestCaseStarted c s e).1 e).2.1 = 0
  ∧ countRuleHeads (onTestCaseStarted c (onTestCaseStarted c s e).1 e).2.1 = 0 := by
  refine ⟨countFeatureHeads_onTestCaseStarted c s e,
          countRuleHeads_onTestCaseStarted c s e, ?_, ?_⟩
  · rw [countFeatureHeads_onTestCaseStarted, featureRenderCond_after c s e h]
    rfl
  · rw [countRuleHeads_onTestCaseStarted, ruleRenderCount_after c s e h]

/-- Witness for C1: the amended theorem applied to the first attempt of the
counterexample fixture. -/
theorem C1_heads_amended_witness :
    ((attemptDoc c1Collector { id := some "t1" }).uri).isSome = true
  ∧ countFeatureHeads (onTestCaseStarted c1Collector initState { id := some "t1" }).2.1 = 1 := by
  refine ⟨by decide, ?_⟩
  have h := C1_heads_amended c1Collector initState { id := some "t1" } (by decide)
  rw [h.1]
  decide

/-- Claim C3 (amended): on an attempt-started, the tracked uri is updated
(to `uri || ''`) and the feature head rendered exactly when the document
uri differs from the tracked one AND a feature resolves; in particular,
for a document with no resolvable feature the transition block is skipped
entirely — no feature head, and the tracked uri is left unchanged (it is
NOT updated to the new uri). -/
theorem C3_document_transition_amended (c : String → TestCaseAttempt)
    (s : FormatterState) (e : TestCaseStarted) :
    ((onTestCaseStarted c s e).1.uri
        = if featureRenderCond c s e then some ((attemptDoc c e).uri.getD "") else s.uri)
  ∧ countFeatureHeads (onTestCaseStarted c s e).2.1
      = (if featureRenderCond c s e then 1 else 0) :=
  ⟨onTestCaseStarted_uri c s e, countFeatureHeads_onTestCaseStarted c s e⟩

/-- Claim C5 (amended): a step-finished event produces no output when the
status is absent or PASSED; otherwise exactly one status line, and
exactly one message line if and only if a truthy (present, NON-EMPTY)
message is attached; the state is never changed. -/
theorem C5_step_finished_amended (s : FormatterState) (e : TestStepFinished) :
    (onTestStepFinished s e).2.1.countP isStatusLine = (if statusActive e then 1 else 0)
  ∧ (onTestStepFinished s e).2.1.countP isMessageLine
      = (if statusActive e && messageTruthy e then 1 else 0)
  ∧ (onTestStepFinished s e).2.1.length
      = (if statusActive e then if messageTruthy e then 4 else 2 else 0)
  ∧ (onTestStepFinished s e).1 = s := by
  unfold onTestStepFinished statusActive messageTruthy
  cases hres : e.testStepResult.bind TestStepResult.status with
  | none => simp [hres]
  | some st =>
      by_cases hp : st = Status.PASSED
      · simp [hres, hp]
      · cases hmsg : e.testStepResult.bind TestStepResult.message with
        | none =>
            simp [hres, hmsg, hp, List.countP_cons, isStatusLine, isMessageLine]
        | some m =>
            by_cases hm : m = "" <;>
              simp [hres, hmsg, hp, hm, List.countP_cons, isStatusLine, isMessageLine]

/-- Claim C6: a step-started event whose runtime step cannot be resolved
to a source step — no test step matches the event's step id, or the
matching one has no truthy `pickleStepId` (a hook) — is silently skipped:
state unchanged, no output, no error. -/
theorem C6_unresolved_step_skipped (c : String → TestCaseAttempt) (s : FormatterState)
    (e : TestStepStarted) (h : stepUnresolvable c e = true) :
    onTestStepStarted c s e = (s, [], none) := by
  unfold stepUnresolvable at h
  unfold onTestStepStarted
  cases hts : ((c (e.testCaseStartedId.getD "")).testCase.testSteps.getD []).find?
      (fun item => item.id == e.testStepId) with
  | none => simp [hts]
  | some ts =>
      simp only [hts] at h
      cases hps : ts.pickleStepId with
      | none => simp [hts, hps]
      | some psId =>
          simp only [hps] at h
          simp [hts, hps, of_decide_eq_true h]

/-- Witness for C6: the hook step of the concrete fixture is skipped. -/
theorem C6_unresolved_step_skipped_witness :
    stepUnresolvable c6Collector c6Event = true
  ∧ onTestStepStarted c6Collector initState c6Event = (initState, [], none) :=
  ⟨by decide, C6_unresolved_step_skipped c6Collector initState c6Event (by decide)⟩

/-- Claim C9: a pickle with an EMPTY (but present) AST id list does not
trigger the fatal missing-AST-links error — the first-element lookups
simply yield no rule (so no rule head) and no scenario node; only a
pickle whose `astNodeIds` field is entirely absent raises
`Err.pickleAstMissing`. -/
theorem C9_empty_astNodeIds_not_fatal (c : String → TestCaseAttempt)
    (s : FormatterState) (e : TestCaseStarted) :
    ((attemptPickle c e).astNodeIds = some [] →
        (onTestCaseStarted c s e).2.2 ≠ some Err.pickleAstMissing
      ∧ countRuleHeads (onTestCaseStarted c s e).2.1 = 0
      ∧ jsLookup (attemptDoc c e).exampleRuleMap (([] : List String).head?) = none
      ∧ jsLookup (attemptDoc c e).scenarioMap (([] : List String).head?) = none)
  ∧ ((attemptPickle c e).astNodeIds = none →
        (onTestCaseStarted c s e).2.2 = some Err.pickleAstMissing) := by
  constructor
  · intro ha
    refine ⟨?_, ?_, rfl, rfl⟩
    · rw [onTestCaseStarted_err]
      simp only [ha]
      rw [renderScenarioHead_err]
      simp [ha, jsLookup]
    · rw [countRuleHeads_onTestCaseStarted]
      unfold ruleRenderCount
      simp [ha, jsLookup]
  · intro ha
    rw [onTestCaseStarted_err]
    simp [ha]

/-- Witness for C9: both halves applied to the concrete fixtures. -/
theorem C9_empty_astNodeIds_not_fatal_witness :
    (onTestCaseStarted c9Collector initState c9Event).2.2 ≠ some Err.pickleAstMissing
  ∧ (onTestCaseStarted c9AbsentCollector initState c9Event).2.2 = some Err.pickleAstMissing :=
  ⟨((C9_empty_astNodeIds_not_fatal c9Collector initState c9Event).1 (by decide)).1,
   (C9_empty_astNodeIds_not_fatal c9AbsentCollector initState c9Event).2 (by decide)⟩

/-- Claim C10: when the document uri differs, a feature resolves, and the
pickle has no AST links, the handler raises the fatal error only AFTER
the feature head has been emitted and the tracker updated: the output
contains the feature head and the resulting state already has the new
uri, a cleared rule id and offset 0 — the failed event is not atomic. -/
theorem C10_non_atomic_failure (c : String → TestCaseAttempt) (s : FormatterState)
    (e : TestCaseStarted)
    (hf : (attemptDoc c e).feature.isSome)
    (hu : s.uri ≠ (attemptDoc c e).uri)
    (ha : (attemptPickle c e).astNodeIds = none) :
    (onTestCaseStarted c s e).2.2 = some Err.pickleAstMissing
  ∧ countFeatureHeads (onTestCaseStarted c s e).2.1 = 1
  ∧ (onTestCaseStarted c s e).1
      = { uri := some ((attemptDoc c e).uri.getD ""), lastRuleId := none, indentOffset := 0 } := by
  have hcond : featureRenderCond c s e = true := by
    unfold featureRenderCond
    simp [hu, hf]
  refine ⟨?_, ?_, ?_⟩
  · rw [onTestCaseStarted_err]
    simp [ha]
  · rw [countFeatureHeads_onTestCaseStarted, hcond]
    rfl
  · rw [onTestCaseStarted_fst]
    simp only [ha]
    rw [featureReset_fst]
    unfold featureRenderCond at hcond
    simp [hcond]
    intro h2
    exact absurd hf (by simp [h2 hu])

/-- Witness for C10: the concrete new-document fixture with missing links. -/
theorem C10_non_atomic_failure_witness :
    (onTestCaseStarted c10Collector initState c10Event).2.2 = some Err.pickleAstMissing
  ∧ countFeatureHeads (onTestCaseStarted c10Collector initState c10Event).2.1 = 1 :=
  ⟨(C10_non_atomic_failure c10Collector initState c10Event (by decide) (by decide) (by decide)).1,
   (C10_non_atomic_failure c10Collector initState c10Event (by decide) (by decide) (by decide)).2.1⟩

end CucumberPretty
